import Mathlib

/-!
Verification of the rtsyn plugin UI API and its example C plugin.

The repository consists of a header `rtsyn_plugin_ui.h` declaring the UI
schema / behavior library, and `example_c_plugin.c`, an example plugin.
The example plugin's functions are embedded directly from the C source.
The library functions declared in the header (schema builder, field
constructors, behavior encoder) have no implementation in the repository,
so they are modelled from the specification, with the serialized JSON
wire documents represented as a JSON value tree.

Machine doubles carry only the exact literal values 1.0, 440.0, 2.0,
0.02, bounds, etc., and the code performs no floating-point arithmetic on
them (only storage and return), so doubles are embedded as rationals.
C strings are embedded as Lean strings, nullable C strings as Option
String, C int as Int, uint64_t as Nat.
-/

/-- JSON value tree: the shape of the wire documents described in the
specification (objects keep their key-value pairs in order). -/
inductive Json where
  | null : Json
  | bool (b : Bool) : Json
  | num (q : ℚ) : Json
  | str (s : String) : Json
  | arr (xs : List Json) : Json
  | obj (kvs : List (String × Json)) : Json

/-- Look up a key of a JSON object (first match); `none` on non-objects. -/
def Json.getKey (j : Json) (k : String) : Option Json :=
  match j with
  | .obj kvs => kvs.lookup k
  | _ => none

/-- Whether a JSON object carries the given key. -/
def Json.hasKey (j : Json) (k : String) : Bool :=
  (j.getKey k).isSome

/-- The `key` attributes of the entries of the `fields` array of a
serialized schema document, in document order. -/
def Json.fieldKeys (j : Json) : List String :=
  match j.getKey ("fields") with
  | some (.arr xs) =>
      xs.filterMap (fun f =>
        match f.getKey ("key") with
        | some (.str s) => some s
        | _ => none)
  | _ => []

-- === Constants from rtsyn_plugin_ui.h ===

def RTSYN_FILE_MODE_OPEN : Int := 0
def RTSYN_FILE_MODE_SAVE : Int := 1
def RTSYN_FILE_MODE_FOLDER : Int := 2

def RTSYN_EXTENDABLE_NONE : Int := 0
def RTSYN_EXTENDABLE_MANUAL : Int := 1
def RTSYN_EXTENDABLE_AUTO : Int := 2

-- === Config fields and UI schema (library, modelled from the spec) ===

/-- Modelled from the spec: the implementation of the RTSynConfigField
type is not in the repository (the header only declares it opaquely).
A tagged union over five variants, each with key, label, default and
type-specific constraints (spec section 3). -/
inductive RTSynConfigField where
  | text (key label : String) (default : Option String) : RTSynConfigField
  | integer (key label : String) (default min max : Int) : RTSynConfigField
  | float (key label : String) (default min max : ℚ) : RTSynConfigField
  | boolean (key label : String) (default : Int) : RTSynConfigField
  | filepath (key label : String) (default : Option String) (mode : Int) : RTSynConfigField

/-- Modelled from the spec: the implementation of RTSynUISchema is not in
the repository. An ordered sequence of config fields (order = declaration
order, spec section 3). -/
structure RTSynUISchema where
  fields : List RTSynConfigField

/-- Modelled from the spec: `rtsyn_ui_schema_new` has no implementation in
the repository; creates an empty schema. -/
def rtsyn_ui_schema_new : RTSynUISchema := ⟨[]⟩

/-- Modelled from the spec: `rtsyn_ui_schema_add_field` has no
implementation in the repository; appends the field at the end of the
ordered sequence (spec section 4.3). -/
def rtsyn_ui_schema_add_field (schema : RTSynUISchema) (field : RTSynConfigField) :
    RTSynUISchema :=
  ⟨schema.fields ++ [field]⟩

/-- Modelled from the spec: `rtsyn_ui_field_text` has no implementation in
the repository; a pure factory for a text field (spec section 4.2). -/
def rtsyn_ui_field_text (key label : String) (default_value : Option String) :
    RTSynConfigField :=
  .text key label default_value

/-- Modelled from the spec: `rtsyn_ui_field_integer` has no implementation
in the repository; a pure factory for an integer field with bounds. -/
def rtsyn_ui_field_integer (key label : String) (default_value min max : Int) :
    RTSynConfigField :=
  .integer key label default_value min max

/-- Modelled from the spec: `rtsyn_ui_field_float` has no implementation
in the repository; a pure factory for a float field with bounds. -/
def rtsyn_ui_field_float (key label : String) (default_value min max : ℚ) :
    RTSynConfigField :=
  .float key label default_value min max

/-- Modelled from the spec: `rtsyn_ui_field_boolean` has no implementation
in the repository; a pure factory for a boolean field
(C int default: 0 = false, non-zero = true). -/
def rtsyn_ui_field_boolean (key label : String) (default_value : Int) :
    RTSynConfigField :=
  .boolean key label default_value

/-- Modelled from the spec: `rtsyn_ui_field_filepath` has no
implementation in the repository; a pure factory for a file-path field. -/
def rtsyn_ui_field_filepath (key label : String) (default_path : Option String)
    (mode : Int) : RTSynConfigField :=
  .filepath key label default_path mode

/-- Encoding of a file mode constant as its wire name. -/
def fileModeName (mode : Int) : String :=
  if mode = RTSYN_FILE_MODE_SAVE then ("save")
  else if mode = RTSYN_FILE_MODE_FOLDER then ("folder")
  else ("open")

/-- An optional string as a JSON value (`null` when absent). -/
def jsonOfOptStr : Option String → Json
  | some s => .str s
  | none => .null

/-- Modelled from the spec: the per-field entry of the serialized schema
document, `{type, key, label, default, ...type-specific bounds/mode}`
(spec section 6). -/
def fieldToJson : RTSynConfigField → Json
  | .text key label default =>
      .obj [(("type"), .str ("text")), (("key"), .str key), (("label"), .str label),
            (("default"), jsonOfOptStr default)]
  | .integer key label default min max =>
      .obj [(("type"), .str ("integer")), (("key"), .str key), (("label"), .str label),
            (("default"), .num (default : ℚ)), (("min"), .num (min : ℚ)),
            (("max"), .num (max : ℚ))]
  | .float key label default min max =>
      .obj [(("type"), .str ("float")), (("key"), .str key), (("label"), .str label),
            (("default"), .num default), (("min"), .num min), (("max"), .num max)]
  | .boolean key label default =>
      .obj [(("type"), .str ("boolean")), (("key"), .str key), (("label"), .str label),
            (("default"), .bool (default != 0))]
  | .filepath key label default mode =>
      .obj [(("type"), .str ("filepath")), (("key"), .str key), (("label"), .str label),
            (("default"), jsonOfOptStr default), (("mode"), .str (fileModeName mode))]

/-- Modelled from the spec: `rtsyn_ui_schema_to_json` has no
implementation in the repository; produces an object with a `fields`
array whose entries preserve insertion order (spec section 4.3). -/
def rtsyn_ui_schema_to_json (schema : RTSynUISchema) : Json :=
  .obj [(("fields"), .arr (schema.fields.map fieldToJson))]

/-- Modelled from the spec: the header declares the schema parameter of
`rtsyn_ui_schema_to_json` as const, and the spec states the call neither
consumes nor mutates the schema; the call is embedded state-passing,
returning the document together with the schema as the call leaves it. -/
def rtsyn_ui_schema_to_json_call (schema : RTSynUISchema) : Json × RTSynUISchema :=
  (rtsyn_ui_schema_to_json schema, schema)

/-- Encoding of an extendable-inputs type constant as its wire name. -/
def extendableName (t : Int) : String :=
  if t = RTSYN_EXTENDABLE_MANUAL then ("manual")
  else if t = RTSYN_EXTENDABLE_AUTO then ("auto")
  else ("none")

/-- Modelled from the spec: `rtsyn_behavior_to_json` has no implementation
in the repository; a pure encoder of the behavior flags, with the
`extendable_inputs_pattern` key present only for the auto mode
(spec sections 4.4 and 6). C int booleans: non-zero encodes true. -/
def rtsyn_behavior_to_json (supports_start_stop supports_restart : Int)
    (extendable_inputs_type : Int) (extendable_inputs_pattern : Option String)
    (loads_started connection_dependent : Int) : Json :=
  .obj ([(("supports_start_stop"), .bool (supports_start_stop != 0)),
         (("supports_restart"), .bool (supports_restart != 0)),
         (("extendable_inputs"), .str (extendableName extendable_inputs_type))] ++
        (if extendable_inputs_type = RTSYN_EXTENDABLE_AUTO then
          [(("extendable_inputs_pattern"),
            .str (extendable_inputs_pattern.getD ("")))]
         else []) ++
        [(("loads_started"), .bool (loads_started != 0)),
         (("connection_dependent"), .bool (connection_dependent != 0))])

-- === The example plugin (embedded from example_c_plugin.c) ===

/-- The ExamplePlugin instance struct. -/
structure ExamplePlugin where
  id : Nat
  amplitude : ℚ
  frequency : ℚ
  output_path : String

/-- The initialized instance state that `create` stores on a successful
allocation: bound id, amplitude 1.0, frequency 440.0, empty path. -/
def createInit (id : Nat) : ExamplePlugin :=
  { id := id, amplitude := 1, frequency := 440, output_path := ("") }

/-- `create` from the example plugin: `malloc_ok` models whether the
single malloc succeeds; on failure the function returns NULL (`none`),
otherwise the freshly initialized instance. -/
def create (malloc_ok : Bool) (id : Nat) : Option ExamplePlugin :=
  if malloc_ok then some (createInit id) else none

/-- `destroy` from the example plugin: frees the instance only when the
handle is non-null. The result counts the `free` calls performed. -/
def destroy (inst : Option ExamplePlugin) : Nat :=
  match inst with
  | some _ => 1
  | none => 0

/-- `meta_json` from the example plugin: returns the constant metadata
document (a strdup of a string literal, independent of the instance). -/
def meta_json (_inst : ExamplePlugin) : String :=
  "\x7b\"name\":\"Example C Plugin\",\"fixed_vars\":[],\"default_vars\":[\x7b\"amplitude\":1.0\x7d,\x7b\"frequency\":440.0\x7d]\x7d"

/-- `inputs_json` from the example plugin: the constant empty array. -/
def inputs_json (_inst : ExamplePlugin) : String :=
  "[]"

/-- `outputs_json` from the example plugin: the constant single-port
array. -/
def outputs_json (_inst : ExamplePlugin) : String :=
  "[\x7b\"id\":\"signal\"\x7d]"

/-- `ui_schema_json` from the example plugin: builds the schema with the
amplitude, frequency and output_path fields in that order and serializes
it. -/
def ui_schema_json (_inst : ExamplePlugin) : Json :=
  let schema := rtsyn_ui_schema_new
  let amplitude_field := rtsyn_ui_field_float ("amplitude") ("Amplitude") 1 0 10
  let schema := rtsyn_ui_schema_add_field schema amplitude_field
  let freq_field := rtsyn_ui_field_float ("frequency") ("Frequency (Hz)") 440 20 20000
  let schema := rtsyn_ui_schema_add_field schema freq_field
  let path_field := rtsyn_ui_field_filepath ("output_path") ("Output File") none
    RTSYN_FILE_MODE_SAVE
  let schema := rtsyn_ui_schema_add_field schema path_field
  rtsyn_ui_schema_to_json schema

/-- `behavior_json` from the example plugin: encodes the fixed flag
combination (1, 1, NONE, NULL, 1, 0). -/
def behavior_json (_inst : ExamplePlugin) : Json :=
  rtsyn_behavior_to_json 1 1 RTSYN_EXTENDABLE_NONE none 1 0

/-- `process` from the example plugin: returns status 0 and leaves the
instance unchanged (the body is empty apart from the return). -/
def process (inst : ExamplePlugin) (_tick : Nat) (_period_seconds : ℚ) :
    Int × ExamplePlugin :=
  (0, inst)

/-- `set_input` from the example plugin: a no-op (no inputs). -/
def set_input (inst : ExamplePlugin) (_port : String) (_value : ℚ) : ExamplePlugin :=
  inst

/-- `get_output` from the example plugin: returns the amplitude for port
"signal" and the sentinel 0.0 for any other port. -/
def get_output (inst : ExamplePlugin) (port : String) : ℚ :=
  if port = ("signal") then inst.amplitude else 0

/-- `set_config_json` from the example plugin: returns status 0 without
parsing the payload and leaves the instance unchanged. -/
def set_config_json (inst : ExamplePlugin) (_json : String) : Int × ExamplePlugin :=
  (0, inst)

-- === Host-call sequences over one instance ===

/-- A state-affecting host call on one instance (the calls the claims
quantify over as "intervening" operations). -/
inductive HostCall where
  | setConfigJson (payload : String) : HostCall
  | setInput (port : String) (value : ℚ) : HostCall
  | processTick (tick : Nat) (period : ℚ) : HostCall

/-- The instance state after one host call. -/
def applyCall (inst : ExamplePlugin) : HostCall → ExamplePlugin
  | .setConfigJson payload => (set_config_json inst payload).2
  | .setInput port value => set_input inst port value
  | .processTick tick period => (process inst tick period).2

/-- The instance state after a sequence of host calls. -/
def applyCalls (inst : ExamplePlugin) (calls : List HostCall) : ExamplePlugin :=
  calls.foldl applyCall inst

/-- A schema obtained by adding a list of fields, in order, to a given
schema. -/
def addFields (schema : RTSynUISchema) (fs : List RTSynConfigField) : RTSynUISchema :=
  fs.foldl rtsyn_ui_schema_add_field schema

-- === Helper lemmas ===

theorem addFields_fields (s : RTSynUISchema) (fs : List RTSynConfigField) :
    (addFields s fs).fields = s.fields ++ fs := by
  induction fs generalizing s with
  | nil => simp [addFields]
  | cons f fs ih =>
      have h := ih (rtsyn_ui_schema_add_field s f)
      simpa [addFields, rtsyn_ui_schema_add_field, List.append_assoc] using h

-- === Claim theorems ===

/-- C1 counterexample: in the concrete scenario create(42), then
set_config_json with the amplitude-2.0 payload (status 0), then
process(0, 0.02) (status 0), get_output(instance, "signal") does NOT
return 2.0: the example plugin ignores the payload, so the output is the
default amplitude, not the updated one. -/
theorem scenario_get_output_not_two :
    create true 42 = some (createInit 42) ∧
    (set_config_json (createInit 42) ("\x7b\"amplitude\":2.0\x7d")).1 = 0 ∧
    (process (set_config_json (createInit 42) ("\x7b\"amplitude\":2.0\x7d")).2 0
        (1/50)).1 = 0 ∧
    get_output
      (process (set_config_json (createInit 42) ("\x7b\"amplitude\":2.0\x7d")).2 0
        (1/50)).2 ("signal") ≠ 2 := by
  refine ⟨rfl, rfl, rfl, ?_⟩
  decide

/-- C1 (amended): in the concrete scenario create(42), then
set_config_json with the amplitude-2.0 payload returning accepted status
0, then process(0, 0.02) returning 0, get_output(instance, "signal")
returns the default amplitude 1.0, because the example plugin's
set_config_json accepts the document without parsing or applying it. -/
theorem scenario_get_output_default :
    create true 42 = some (createInit 42) ∧
    (set_config_json (createInit 42) ("\x7b\"amplitude\":2.0\x7d")).1 = 0 ∧
    (process (set_config_json (createInit 42) ("\x7b\"amplitude\":2.0\x7d")).2 0
        (1/50)).1 = 0 ∧
    get_output
      (process (set_config_json (createInit 42) ("\x7b\"amplitude\":2.0\x7d")).2 0
        (1/50)).2 ("signal") = 1 := by
  refine ⟨rfl, rfl, rfl, ?_⟩
  decide

/-- C2: for every sequence of rtsyn_ui_schema_add_field calls on a fresh
schema, the document produced by rtsyn_ui_schema_to_json lists the fields
in exactly the order they were added, and the example plugin's
ui_schema_json document lists its fields in the order amplitude,
frequency, output_path. -/
theorem schema_to_json_preserves_order (fs : List RTSynConfigField)
    (inst : ExamplePlugin) :
    (rtsyn_ui_schema_to_json (addFields rtsyn_ui_schema_new fs)).getKey ("fields")
        = some (.arr (fs.map fieldToJson)) ∧
    (ui_schema_json inst).fieldKeys = [("amplitude"), ("frequency"), ("output_path")] := by
  constructor
  · simp [rtsyn_ui_schema_to_json, Json.getKey, addFields_fields, rtsyn_ui_schema_new,
      List.lookup]
  · rfl

/-- C3: for every flag combination, the document encoded by
rtsyn_behavior_to_json contains the extendable_inputs_pattern key exactly
when the extendable-inputs type is auto; and the example plugin's
behavior_json encodes extendable_inputs "none" with no pattern key,
supports_start_stop true, supports_restart true, loads_started true and
connection_dependent false. -/
theorem behavior_pattern_key_iff_auto (sss sr eit : Int) (pat : Option String)
    (ls cd : Int) (inst : ExamplePlugin) :
    ((rtsyn_behavior_to_json sss sr eit pat ls cd).hasKey
        ("extendable_inputs_pattern") = true ↔ eit = RTSYN_EXTENDABLE_AUTO) ∧
    (behavior_json inst).getKey ("extendable_inputs") = some (.str ("none")) ∧
    (behavior_json inst).hasKey ("extendable_inputs_pattern") = false ∧
    (behavior_json inst).getKey ("supports_start_stop") = some (.bool true) ∧
    (behavior_json inst).getKey ("supports_restart") = some (.bool true) ∧
    (behavior_json inst).getKey ("loads_started") = some (.bool true) ∧
    (behavior_json inst).getKey ("connection_dependent") = some (.bool false) := by
  refine ⟨?_, rfl, rfl, rfl, rfl, rfl, rfl⟩
  by_cases h : eit = RTSYN_EXTENDABLE_AUTO <;>
    simp [rtsyn_behavior_to_json, Json.hasKey, Json.getKey, List.lookup, h]

/-- C4: for every instance and every port other than "signal", get_output
returns the sentinel 0.0 and signals no error. -/
theorem get_output_unknown_port (inst : ExamplePlugin) (port : String)
    (h : port ≠ ("signal")) :
    get_output inst port = 0 := by
  simp [get_output, h]

theorem get_output_unknown_port_witness :
    (("nonexistent" : String) ≠ ("signal")) ∧
      get_output (createInit 42) ("nonexistent") = 0 :=
  ⟨by decide, get_output_unknown_port (createInit 42) ("nonexistent") (by decide)⟩

/-- C5: create(id) returns null exactly when the allocation fails;
otherwise the returned instance is bound to the id and carries the
advertised defaults: amplitude 1.0, frequency 440.0 and an empty output
path. -/
theorem create_null_only_on_alloc_failure (ok : Bool) (id : Nat) :
    (create ok id = none ↔ ok = false) ∧
    (∀ p : ExamplePlugin, create ok id = some p →
      p.id = id ∧ p.amplitude = 1 ∧ p.frequency = 440 ∧ p.output_path = ("")) := by
  constructor
  · cases ok <;> simp [create]
  · intro p hp
    cases ok with
    | false => simp [create] at hp
    | true =>
        simp [create] at hp
        simp [← hp, createInit]

theorem create_null_only_on_alloc_failure_witness :
    (createInit 42).id = 42 ∧ (createInit 42).amplitude = 1 ∧
      (createInit 42).frequency = 440 ∧ (createInit 42).output_path = ("") :=
  (create_null_only_on_alloc_failure true 42).2 (createInit 42) rfl

/-- C6: rtsyn_ui_schema_to_json neither consumes nor mutates the schema:
after the call the schema is unchanged, serializing it again yields an
equal document, and a further add_field call still appends to the same
field sequence. -/
theorem schema_to_json_does_not_mutate (s : RTSynUISchema) :
    (rtsyn_ui_schema_to_json_call s).2 = s ∧
    rtsyn_ui_schema_to_json (rtsyn_ui_schema_to_json_call s).2
        = (rtsyn_ui_schema_to_json_call s).1 ∧
    (∀ f, (rtsyn_ui_schema_add_field (rtsyn_ui_schema_to_json_call s).2 f).fields
        = s.fields ++ [f]) :=
  ⟨rfl, rfl, fun _ => rfl⟩

/-- C7: meta_json, inputs_json and outputs_json are pure and stable: after
any sequence of set_config_json, set_input and process calls each query
returns the same document as before, namely the constant metadata document
(name "Example C Plugin", empty fixed_vars, default amplitude 1.0 and
frequency 440.0), the empty inputs array, and the single-entry outputs
array for port "signal". -/
theorem metadata_queries_stable (inst : ExamplePlugin) (calls : List HostCall) :
    meta_json (applyCalls inst calls) = meta_json inst ∧
    meta_json inst =
      ("\x7b\"name\":\"Example C Plugin\",\"fixed_vars\":[],\"default_vars\":[\x7b\"amplitude\":1.0\x7d,\x7b\"frequency\":440.0\x7d]\x7d") ∧
    inputs_json (applyCalls inst calls) = ("[]") ∧
    outputs_json (applyCalls inst calls) = ("[\x7b\"id\":\"signal\"\x7d]") :=
  ⟨rfl, rfl, rfl, rfl⟩

/-- C9: for every instance and every payload, the example plugin's
set_config_json returns status 0 and leaves the instance state (id,
amplitude, frequency, output_path) unchanged. -/
theorem set_config_json_accepts_and_preserves (inst : ExamplePlugin)
    (payload : String) :
    set_config_json inst payload = (0, inst) :=
  rfl

/-- C10: destroy with a null handle performs no release (a safe no-op),
and destroy releases its argument exactly when the handle is non-null. -/
theorem destroy_null_is_noop :
    destroy none = 0 ∧ (∀ p : ExamplePlugin, destroy (some p) = 1) :=
  ⟨rfl, fun _ => rfl⟩
